import Mathlib

/-!
Verification of the Trade-Dashboard view-state reducer.

The development shallowly embeds the two Python source files:

* `styles.py` — the theme table (`light_theme`, `dark_theme`) and the
  page-style helper `get_global_styles`;
* `app.py` — the two Dash callbacks `update_stock_price` (price label and
  candlestick chart) and `update_theme` (page style).

Python dictionaries with a fixed key set become Lean structures; the
market-data gateway (`yfinance`) becomes a record of possibly-failing
results (`Except String …` models a raised exception carrying its
message); the Python `try/except` becomes explicit matching on those
results.  An exception that the Python code does not catch (the
`IndexError` possible on lines 94–95 of `app.py`) is modelled as the
`Except.error` of the result type of the embedded function.
-/

namespace TradeDashboard

/-- A theme palette, embedding the dictionaries of `styles.py` (keys:
`background`, `text`, `graph_bg`, `graph_text`, `font`). -/
structure Theme where
  background : String
  text : String
  graph_bg : String
  graph_text : String
  font : String
deriving DecidableEq

/-- `light_theme` of `styles.py`. -/
def light_theme : Theme :=
  ⟨"#FFFFFF", "#000000", "#F5F5F5", "#000000", "Arial, sans-serif"⟩

/-- `dark_theme` of `styles.py`. -/
def dark_theme : Theme :=
  ⟨"#2C2C2C", "#E0E0E0", "#3A3A3A", "#FFFFFF", "Arial, sans-serif"⟩

/-- The page-style record returned by `get_global_styles` (`styles.py`)
and by the callback `update_theme` (`app.py`): the same seven CSS keys. -/
structure PageStyle where
  backgroundColor : String
  color : String
  height : String
  width : String
  fontFamily : String
  padding : String
  pageTransition : String
deriving DecidableEq

/-- `get_global_styles(selected_theme)` of `styles.py`. -/
def get_global_styles (selected_theme : String) : PageStyle :=
  let theme := if selected_theme = "dark" then dark_theme else light_theme
  ⟨theme.background, theme.text, "100vh", "100vw", theme.font, "20px",
    "background-color 0.5s ease"⟩

/-- `update_theme(is_dark_mode)` of `app.py` (lines 145–155): the inline
page-style construction, with the literal `"Arial, sans-serif"` font. -/
def update_theme (is_dark_mode : Bool) : PageStyle :=
  let theme := if is_dark_mode then dark_theme else light_theme
  ⟨theme.background, theme.text, "100vh", "100vw", "Arial, sans-serif", "20px",
    "background-color 0.5s ease"⟩

/-- `period_options` of `app.py` line 34. -/
def period_options : List String := ["1d", "5d", "1mo", "3mo", "1y"]

/-- `interval_options` of `app.py` line 35. -/
def interval_options : List String := ["1m", "5m", "15m", "1h", "1d"]

/-- The generator `next((i for i, v in enumerate(clicks) if v), …)` of
`app.py` lines 94–95: the index of the first truthy (non-zero) counter,
or `none` when the generator is exhausted.  A Dash `n_clicks` of `None`
and of `0` are both falsy; both are modelled as the counter `0`. -/
def firstTruthyIdxAux : List Nat → Option Nat
  | [] => none
  | v :: rest => if v ≠ 0 then some 0 else (firstTruthyIdxAux rest).map (· + 1)

/-- The full `next(…, 0)` expression: first truthy index, defaulting to 0. -/
def firstTruthyIdx (clicks : List Nat) : Nat :=
  (firstTruthyIdxAux clicks).getD 0

/-- Python list indexing `options[firstTruthyIdx clicks]` as performed on
`app.py` lines 94–95: out-of-range indexing raises `IndexError`. -/
def resolve_option (options : List String) (clicks : List Nat) :
    Except String String :=
  match options.get? (firstTruthyIdx clicks) with
  | some v => Except.ok v
  | none => Except.error "IndexError: list index out of range"

/-- One OHLC bar: a row of the `yfinance` history DataFrame.  Timestamps
are abstracted to naturals; prices are exact rationals. -/
structure OhlcBar where
  timestamp : Nat
  Open : Rat
  High : Rat
  Low : Rat
  Close : Rat
deriving DecidableEq

/-- The `go.Candlestick` trace added on `app.py` lines 113–121. -/
structure CandlestickTrace where
  x : List Nat
  Open : List Rat
  High : List Rat
  Low : List Rat
  Close : List Rat
  increasing_line_color : String
  decreasing_line_color : String
deriving DecidableEq

/-- The layout fields set by `fig.update_layout` on `app.py` lines 123–132. -/
structure GraphLayout where
  title : String
  xaxis_title : String
  yaxis_title : String
  plot_bgcolor : String
  paper_bgcolor : String
  font_color : String
  xaxis_gridcolor : String
  yaxis_gridcolor : String
deriving DecidableEq

/-- A `plotly` figure: its traces and its (possibly untouched) layout. -/
structure Figure where
  data : List CandlestickTrace
  layout : Option GraphLayout
deriving DecidableEq

/-- `go.Figure()`: the empty-chart marker (no traces, default layout). -/
def emptyFigure : Figure := ⟨[], none⟩

/-- Round a rational to the nearest integer, ties to the even integer:
the rounding used by the Python fixed-point `format` (IEEE round-half-even),
stated on exact rationals. -/
def roundHalfEven (q : Rat) : Int :=
  let f := ⌊q⌋
  if q - f < 1 / 2 then f
  else if q - f > 1 / 2 then f + 1
  else if f % 2 = 0 then f else f + 1

/-- The two forced digits after the decimal point of a `.2f` rendering
of a value whose cent part is `m < 100`. -/
def twoDigits (m : Nat) : String :=
  String.mk [Nat.digitChar (m / 10), Nat.digitChar (m % 10)]

/-- Python `f"\x7bx:.2f\x7d"` modelled on exact rationals: scale to
cents, round half-to-even, then print with exactly two digits after the
decimal point. -/
def format2 (q : Rat) : String :=
  let n := roundHalfEven (q * 100)
  (if n < 0 then "-" else "") ++ toString (n.natAbs / 100) ++ "." ++
    twoDigits (n.natAbs % 100)

/-- The market-data gateway (`yfinance`) behaviour for one invocation:
the result of `stock_data.fast_info["lastPrice"]` (`app.py` line 100) and
of `stock_data.history(period, interval)` (line 103) for each period and
interval.  `Except.error msg` models the call raising an exception whose
`str` is `msg`. -/
structure Gateway where
  fast_info_lastPrice : Except String Rat
  history : String → String → Except String (List OhlcBar)

/-- The candlestick figure built on `app.py` lines 112–132 for a
successful fetch. -/
def make_candlestick_figure (ticker : String) (is_dark_mode : Bool)
    (bars : List OhlcBar) : Figure :=
  let theme := if is_dark_mode then dark_theme else light_theme
  ⟨[⟨bars.map OhlcBar.timestamp, bars.map OhlcBar.Open, bars.map OhlcBar.High,
      bars.map OhlcBar.Low, bars.map OhlcBar.Close,
      if is_dark_mode then "lime" else "green", "red"⟩],
    some ⟨ticker ++ " Stock Price", "Time", "Price ($)", theme.graph_bg,
      theme.graph_bg, theme.graph_text, "gray", "gray"⟩⟩

/-- The `try` block of `update_stock_price` (`app.py` lines 98–138),
including its `except` handler: first the `fast_info` lookup, then the
price label, then the history fetch, the emptiness check, and the figure
construction; any gateway exception is caught and becomes the
`"Error: …"` pair. -/
def try_fetch_and_render (gw : Gateway) (ticker : String)
    (is_dark_mode : Bool) (period interval : String) : String × Figure :=
  match gw.fast_info_lastPrice with
  | Except.error e => ("Error: " ++ e, emptyFigure)
  | Except.ok latest_price =>
    let price_text := "Current Price: $" ++ format2 latest_price
    match gw.history period interval with
    | Except.error e => ("Error: " ++ e, emptyFigure)
    | Except.ok stock_price =>
      if stock_price.isEmpty then
        ("Invalid Ticker: " ++ ticker, emptyFigure)
      else
        (price_text, make_candlestick_figure ticker is_dark_mode stock_price)

/-- `update_stock_price(ticker, is_dark_mode, period_clicks,
interval_clicks)` of `app.py` lines 92–138.  The outer `Except.error`
models an exception the Python function does NOT catch: the `IndexError`
raised on lines 94–95 when a truthy click-counter sits at an index with
no corresponding option (those lines run before the `try`). -/
def update_stock_price (gw : Gateway) (ticker : String)
    (is_dark_mode : Bool) (period_clicks interval_clicks : List Nat) :
    Except String (String × Figure) :=
  match resolve_option period_options period_clicks with
  | Except.error e => Except.error e
  | Except.ok period =>
    match resolve_option interval_options interval_clicks with
    | Except.error e => Except.error e
    | Except.ok interval =>
      Except.ok (try_fetch_and_render gw ticker is_dark_mode period interval)

/-! ### Helper lemmas -/

lemma firstTruthyIdxAux_lt (l : List Nat) (i : Nat)
    (h : firstTruthyIdxAux l = some i) : i < l.length := by
  induction l generalizing i with
  | nil => simp [firstTruthyIdxAux] at h
  | cons v rest ih =>
    by_cases hv : v ≠ 0
    · simp [firstTruthyIdxAux, hv] at h
      subst h
      simp
    · simp [firstTruthyIdxAux, hv] at h
      obtain ⟨j, hj, rfl⟩ := h
      have := ih j hj
      simp
      omega

lemma firstTruthyIdxAux_eq_some (l : List Nat) (i v : Nat)
    (hv : l.get? i = some v) (hnz : v ≠ 0)
    (hz : ∀ j w, j < i → l.get? j = some w → w = 0) :
    firstTruthyIdxAux l = some i := by
  induction l generalizing i with
  | nil => simp at hv
  | cons a rest ih =>
    cases i with
    | zero =>
      simp at hv
      subst hv
      simp [firstTruthyIdxAux, hnz]
    | succ n =>
      have ha : a = 0 := hz 0 a (Nat.succ_pos n) rfl
      simp [firstTruthyIdxAux, ha]
      exact ih n (by simpa using hv) (fun j w hj hw => hz (j + 1) w (by omega) (by simpa using hw))

lemma firstTruthyIdxAux_eq_none (l : List Nat)
    (hz : ∀ j w, l.get? j = some w → w = 0) :
    firstTruthyIdxAux l = none := by
  induction l with
  | nil => rfl
  | cons a rest ih =>
    have ha : a = 0 := hz 0 a rfl
    simp [firstTruthyIdxAux, ha]
    exact ih (fun j w hw => hz (j + 1) w (by simpa using hw))

lemma firstTruthyIdx_lt (l : List Nat) (n : Nat) (hl : l.length = n)
    (hn : 0 < n) : firstTruthyIdx l < n := by
  unfold firstTruthyIdx
  cases h : firstTruthyIdxAux l with
  | none => simpa using hn
  | some i =>
    have := firstTruthyIdxAux_lt l i h
    simp
    omega

lemma resolve_option_ok (options : List String) (clicks : List Nat)
    (v : String) (hv : options.get? (firstTruthyIdx clicks) = some v) :
    resolve_option options clicks = Except.ok v := by
  unfold resolve_option
  rw [hv]

lemma resolve_option_exists (options : List String) (clicks : List Nat)
    (hlen : clicks.length = options.length) (hne : 0 < options.length) :
    ∃ v, resolve_option options clicks = Except.ok v := by
  have hlt : firstTruthyIdx clicks < options.length :=
    firstTruthyIdx_lt clicks options.length hlen hne
  exact ⟨_, resolve_option_ok options clicks _ (List.get?_eq_get hlt)⟩

lemma update_stock_price_eq_try (gw : Gateway) (ticker : String)
    (is_dark_mode : Bool) (pc ic : List Nat)
    (hp : pc.length = 5) (hi : ic.length = 5) :
    ∃ per itv, resolve_option period_options pc = Except.ok per ∧
      resolve_option interval_options ic = Except.ok itv ∧
      update_stock_price gw ticker is_dark_mode pc ic =
        Except.ok (try_fetch_and_render gw ticker is_dark_mode per itv) := by
  obtain ⟨per, hper⟩ := resolve_option_exists period_options pc (by simpa [period_options] using hp) (by simp [period_options])
  obtain ⟨itv, hitv⟩ := resolve_option_exists interval_options ic (by simpa [interval_options] using hi) (by simp [interval_options])
  refine ⟨per, itv, hper, hitv, ?_⟩
  unfold update_stock_price
  rw [hper, hitv]

lemma error_label_ne_invalid (s t : String) :
    "Error: " ++ s ≠ "Invalid Ticker: " ++ t := by
  intro h
  have h2 := congrArg String.data h
  rw [String.data_append, String.data_append] at h2
  have e1 : "Error: ".data = ['E', 'r', 'r', 'o', 'r', ':', ' '] := rfl
  have e2 : "Invalid Ticker: ".data =
      ['I', 'n', 'v', 'a', 'l', 'i', 'd', ' ', 'T', 'i', 'c', 'k', 'e', 'r', ':', ' '] := rfl
  rw [e1, e2] at h2
  simp at h2

lemma price_label_ne_invalid (s t : String) :
    "Current Price: $" ++ s ≠ "Invalid Ticker: " ++ t := by
  intro h
  have h2 := congrArg String.data h
  rw [String.data_append, String.data_append] at h2
  have e1 : "Current Price: $".data =
      ['C', 'u', 'r', 'r', 'e', 'n', 't', ' ', 'P', 'r', 'i', 'c', 'e', ':', ' ', '$'] := rfl
  have e2 : "Invalid Ticker: ".data =
      ['I', 'n', 'v', 'a', 'l', 'i', 'd', ' ', 'T', 'i', 'c', 'k', 'e', 'r', ':', ' '] := rfl
  rw [e1, e2] at h2
  simp at h2


lemma resolve_first_truthy (options : List String) (clicks : List Nat)
    (hlen : clicks.length ≤ options.length) (i v : Nat)
    (hv : clicks.get? i = some v) (hnz : v ≠ 0)
    (hz : ∀ j w, j < i → clicks.get? j = some w → w = 0) :
    resolve_option options clicks = Except.ok (options.getD i "") := by
  have haux : firstTruthyIdxAux clicks = some i :=
    firstTruthyIdxAux_eq_some clicks i v hv hnz hz
  have hidx : firstTruthyIdx clicks = i := by
    unfold firstTruthyIdx
    rw [haux]
    rfl
  have hlt : i < clicks.length := by
    have := List.get?_eq_some.mp hv
    exact this.1
  have hlt2 : i < options.length := lt_of_lt_of_le hlt hlen
  have hget : options.get? i = some (options.getD i "") := by
    rw [List.getD_eq_getElem?_getD, ← List.get?_eq_getElem?, List.get?_eq_get hlt2]
    rfl
  have hget2 : options.get? (firstTruthyIdx clicks) = some (options.getD i "") := by
    rw [hidx]
    exact hget
  exact resolve_option_ok options clicks _ hget2

lemma resolve_all_falsy (options : List String) (clicks : List Nat)
    (hne : 0 < options.length)
    (hz : ∀ j w, clicks.get? j = some w → w = 0) :
    resolve_option options clicks = Except.ok (options.getD 0 "") := by
  have haux : firstTruthyIdxAux clicks = none := firstTruthyIdxAux_eq_none clicks hz
  have hidx : firstTruthyIdx clicks = 0 := by
    unfold firstTruthyIdx
    rw [haux]
    rfl
  have hget : options.get? 0 = some (options.getD 0 "") := by
    rw [List.getD_eq_getElem?_getD, ← List.get?_eq_getElem?, List.get?_eq_get hne]
    rfl
  have hget2 : options.get? (firstTruthyIdx clicks) = some (options.getD 0 "") := by
    rw [hidx]
    exact hget
  exact resolve_option_ok options clicks _ hget2

/-- Claim C1: over click-counter lists with one counter per declared
option, the effective period is the option at the first index whose
counter is truthy (the first declared option, `"1d"`, when none is), the
identical rule applies to the interval options (default `"1m"`), and in
particular period counters `[0, 1, 0, 0, 1]` resolve to `"5d"`. -/
theorem c1_first_truthy_selection (pc ic : List Nat)
    (hp : pc.length = 5) (hi : ic.length = 5) :
    (∀ i v, pc.get? i = some v → v ≠ 0 →
      (∀ j w, j < i → pc.get? j = some w → w = 0) →
      resolve_option period_options pc = Except.ok (period_options.getD i "")) ∧
    ((∀ j w, pc.get? j = some w → w = 0) →
      resolve_option period_options pc = Except.ok "1d") ∧
    (∀ i v, ic.get? i = some v → v ≠ 0 →
      (∀ j w, j < i → ic.get? j = some w → w = 0) →
      resolve_option interval_options ic = Except.ok (interval_options.getD i "")) ∧
    ((∀ j w, ic.get? j = some w → w = 0) →
      resolve_option interval_options ic = Except.ok "1m") ∧
    resolve_option period_options [0, 1, 0, 0, 1] = Except.ok "5d" := by
  refine ⟨?_, ?_, ?_, ?_, rfl⟩
  · intro i v hv hnz hz
    exact resolve_first_truthy period_options pc (by simp [period_options, hp]) i v hv hnz hz
  · intro hz
    exact resolve_all_falsy period_options pc (by simp [period_options]) hz
  · intro i v hv hnz hz
    exact resolve_first_truthy interval_options ic (by simp [interval_options, hi]) i v hv hnz hz
  · intro hz
    exact resolve_all_falsy interval_options ic (by simp [interval_options]) hz

theorem c1_witness :
    resolve_option period_options [0, 1, 0, 0, 1] = Except.ok "5d" :=
  (c1_first_truthy_selection [0, 1, 0, 0, 1] [0, 0, 0, 0, 0] rfl rfl).2.2.2.2

/-- Claim C7: for both themes, the page style returned by `update_theme`
has `backgroundColor`, `color` and `fontFamily` exactly equal to the
selected palette entries `background`, `text` and `font`; by its type,
`update_theme` is a function of the theme flag alone, so this holds
regardless of ticker, price or chart state. -/
theorem c7_update_theme_matches_palette (b : Bool) :
    (update_theme b).backgroundColor = (if b then dark_theme else light_theme).background ∧
    (update_theme b).color = (if b then dark_theme else light_theme).text ∧
    (update_theme b).fontFamily = (if b then dark_theme else light_theme).font := by
  cases b <;> exact ⟨rfl, rfl, rfl⟩

/-- Claim C10: the inline style construction of `update_theme` in
`app.py` and `get_global_styles` in `styles.py` are extensionally the
same page-style function of the theme flag. -/
theorem c10_update_theme_eq_get_global_styles (b : Bool) :
    update_theme b = get_global_styles (if b then "dark" else "light") := by
  cases b <;> rfl

/-- A fixed benign gateway used to instantiate hypotheses at a concrete
invocation: the last price is 1 and every history is empty. -/
def gwOkEmpty : Gateway := ⟨Except.ok 1, fun _ _ => Except.ok []⟩

/-- Claim C8: `update_stock_price` is deterministic — two invocations
with identical ticker, theme flag, click-counter lists and identical
gateway behaviour return identical results; the embedded reducer holds
no state across calls. -/
theorem c8_deterministic (gw gw2 : Gateway) (t t2 : String) (d d2 : Bool)
    (pc pc2 ic ic2 : List Nat) (hgw : gw = gw2) (ht : t = t2) (hd : d = d2)
    (hpc : pc = pc2) (hic : ic = ic2) :
    update_stock_price gw t d pc ic = update_stock_price gw2 t2 d2 pc2 ic2 := by
  subst hgw ht hd hpc hic
  rfl

theorem c8_witness :
    update_stock_price gwOkEmpty "AAPL" false [0, 0, 0, 0, 0] [0, 0, 0, 0, 0] =
      update_stock_price gwOkEmpty "AAPL" false [0, 0, 0, 0, 0] [0, 0, 0, 0, 0] :=
  c8_deterministic gwOkEmpty gwOkEmpty "AAPL" "AAPL" false false
    [0, 0, 0, 0, 0] [0, 0, 0, 0, 0] [0, 0, 0, 0, 0] [0, 0, 0, 0, 0]
    rfl rfl rfl rfl rfl


/-- Claim C2: whenever the gateway raises (either at the `fast_info`
lookup, or — after a successful lookup — at every `history` call), and
for both themes, `update_stock_price` returns the label `"Error: "`
followed by the exception message, with the empty figure. -/
theorem c2_fetch_error_branch (gw : Gateway) (ticker : String) (dm : Bool)
    (pc ic : List Nat) (hp : pc.length = 5) (hi : ic.length = 5) (msg : String)
    (herr : gw.fast_info_lastPrice = Except.error msg ∨
      ((∃ p, gw.fast_info_lastPrice = Except.ok p) ∧
        ∀ per itv, gw.history per itv = Except.error msg)) :
    update_stock_price gw ticker dm pc ic =
      Except.ok ("Error: " ++ msg, emptyFigure) := by
  obtain ⟨per, itv, hper, hitv, heq⟩ :=
    update_stock_price_eq_try gw ticker dm pc ic hp hi
  rw [heq]
  unfold try_fetch_and_render
  rcases herr with h | ⟨⟨p, hfast⟩, hh⟩
  · rw [h]
  · rw [hfast, hh per itv]

/-- A gateway whose `fast_info` lookup raises. -/
def gwFailing : Gateway :=
  ⟨Except.error "boom", fun _ _ => Except.error "boom"⟩

theorem c2_witness :
    update_stock_price gwFailing "AAPL" true [0, 0, 0, 0, 0] [0, 0, 0, 0, 0] =
      Except.ok ("Error: " ++ "boom", emptyFigure) :=
  c2_fetch_error_branch gwFailing "AAPL" true [0, 0, 0, 0, 0] [0, 0, 0, 0, 0]
    rfl rfl "boom" (Or.inl rfl)

/-- Counterexample to claim C3 as stated: with a truthy click counter at
index 5 — one more counter than there are period options — the Python
function raises an uncaught `IndexError` on line 94 (the indexing runs
before the `try`), so it does not return a (priceLabel, chartSpec) pair. -/
theorem c3_counterexample :
    update_stock_price gwOkEmpty "AAPL" false [0, 0, 0, 0, 0, 1] [0, 0, 0, 0, 0] =
      Except.error "IndexError: list index out of range" := rfl

/-- Claim C3 (amended): `update_stock_price` never raises on any input
whose click-counter lists have exactly one counter per declared option —
the shape the UI framework always supplies — for every ticker, theme
flag and gateway behaviour, including both gateway calls raising. -/
theorem c3_never_raises (gw : Gateway) (ticker : String) (dm : Bool)
    (pc ic : List Nat) (hp : pc.length = 5) (hi : ic.length = 5) :
    ∃ out, update_stock_price gw ticker dm pc ic = Except.ok out := by
  obtain ⟨per, itv, _, _, heq⟩ :=
    update_stock_price_eq_try gw ticker dm pc ic hp hi
  exact ⟨_, heq⟩

theorem c3_witness :
    ∃ out, update_stock_price gwFailing "AAPL" false [0, 0, 0, 0, 0] [0, 0, 0, 0, 0] =
      Except.ok out :=
  c3_never_raises gwFailing "AAPL" false [0, 0, 0, 0, 0] [0, 0, 0, 0, 0] rfl rfl

/-- Claim C4: when no gateway call raises but the fetched bar series is
empty, the label is exactly `"Invalid Ticker: "` followed by the ticker
text, and the chart is the empty figure. -/
theorem c4_invalid_ticker (gw : Gateway) (ticker : String) (dm : Bool)
    (pc ic : List Nat) (hp : pc.length = 5) (hi : ic.length = 5)
    (p : Rat) (hfast : gw.fast_info_lastPrice = Except.ok p)
    (hhist : ∀ per itv, gw.history per itv = Except.ok []) :
    update_stock_price gw ticker dm pc ic =
      Except.ok ("Invalid Ticker: " ++ ticker, emptyFigure) := by
  obtain ⟨per, itv, _, _, heq⟩ :=
    update_stock_price_eq_try gw ticker dm pc ic hp hi
  rw [heq]
  unfold try_fetch_and_render
  rw [hfast, hhist per itv]
  rfl

theorem c4_witness :
    update_stock_price gwOkEmpty "ZZZZ" false [0, 0, 0, 0, 0] [0, 0, 0, 0, 0] =
      Except.ok ("Invalid Ticker: " ++ "ZZZZ", emptyFigure) :=
  c4_invalid_ticker gwOkEmpty "ZZZZ" false [0, 0, 0, 0, 0] [0, 0, 0, 0, 0]
    rfl rfl 1 rfl (fun _ _ => rfl)


lemma digitChar_isDigit (m : Nat) (h : m < 10) :
    (Nat.digitChar m).isDigit = true := by
  interval_cases m <;> rfl

lemma twoDigits_length (m : Nat) : (twoDigits m).length = 2 := rfl

lemma twoDigits_digits (m : Nat) (h : m < 100) :
    ∀ c ∈ (twoDigits m).data, c.isDigit = true := by
  intro c hc
  have h1 : m / 10 < 10 := by omega
  have h2 : m % 10 < 10 := Nat.mod_lt m (by omega)
  simp only [twoDigits] at hc
  rcases List.mem_cons.mp hc with rfl | hc2
  · exact digitChar_isDigit (m / 10) h1
  rcases List.mem_cons.mp hc2 with rfl | hc3
  · exact digitChar_isDigit (m % 10) h2
  simp at hc3

/-- Claim C5: on a successful invocation (no gateway exception,
non-empty bars) the label is `"Current Price: $"` followed by the last
price rendered by the embedded `.2f` formatter, whose output ends in a
decimal point followed by exactly two digit characters. -/
theorem c5_price_label (gw : Gateway) (ticker : String) (dm : Bool)
    (pc ic : List Nat) (hp : pc.length = 5) (hi : ic.length = 5)
    (p : Rat) (bars : List OhlcBar) (hbars : bars ≠ [])
    (hfast : gw.fast_info_lastPrice = Except.ok p)
    (hhist : ∀ per itv, gw.history per itv = Except.ok bars) :
    ∃ fig, update_stock_price gw ticker dm pc ic =
        Except.ok ("Current Price: $" ++ format2 p, fig) ∧
      ∃ s d, format2 p = s ++ "." ++ d ∧ d.length = 2 ∧
        ∀ c ∈ d.data, c.isDigit = true := by
  obtain ⟨per, itv, _, _, heq⟩ :=
    update_stock_price_eq_try gw ticker dm pc ic hp hi
  have hemp : bars.isEmpty = false := by
    cases bars with
    | nil => exact absurd rfl hbars
    | cons b bs => rfl
  refine ⟨make_candlestick_figure ticker dm bars, ?_, ?_⟩
  · rw [heq]
    unfold try_fetch_and_render
    rw [hfast, hhist per itv]
    simp [hemp]
  · refine ⟨(if roundHalfEven (p * 100) < 0 then "-" else "") ++
        toString ((roundHalfEven (p * 100)).natAbs / 100),
      twoDigits ((roundHalfEven (p * 100)).natAbs % 100), rfl,
      twoDigits_length _, twoDigits_digits _ (Nat.mod_lt _ (by omega))⟩

/-- A single sample OHLC bar. -/
def sampleBar : OhlcBar := ⟨0, 10, 12, 9, 11⟩

/-- A gateway returning last price 123.4 and a one-bar history. -/
def gwSample : Gateway :=
  ⟨Except.ok ((1234 : Rat) / 10), fun _ _ => Except.ok [sampleBar]⟩

theorem c5_witness :
    ∃ fig, update_stock_price gwSample "AAPL" false [0, 0, 0, 0, 0] [0, 0, 0, 0, 0] =
      Except.ok ("Current Price: $123.40", fig) := by
  obtain ⟨fig, hfig, -⟩ :=
    c5_price_label gwSample "AAPL" false [0, 0, 0, 0, 0] [0, 0, 0, 0, 0]
      rfl rfl ((1234 : Rat) / 10) [sampleBar] (by simp) rfl (fun _ _ => rfl)
  refine ⟨fig, ?_⟩
  rw [hfig]
  have h : format2 ((1234 : Rat) / 10) = "123.40" := by
    unfold format2
    have hr : roundHalfEven ((1234 : Rat) / 10 * 100) = 12340 := by
      unfold roundHalfEven
      norm_num
    rw [hr]
    rfl
  rw [h]
  rfl


/-- Claim C6: on a successful invocation the figure has exactly one
candlestick trace with up-color `"lime"` (dark) or `"green"` (light) and
down-color `"red"`; plot and paper backgrounds equal to the palette
field `graph_bg`; font color equal to the palette field `graph_text`; axis titles
`"Time"` and `"Price ($)"`; grid color `"gray"` on both axes; and title
the ticker followed by `" Stock Price"`. -/
theorem c6_chart_spec (gw : Gateway) (ticker : String) (dm : Bool)
    (pc ic : List Nat) (hp : pc.length = 5) (hi : ic.length = 5)
    (p : Rat) (bars : List OhlcBar) (hbars : bars ≠ [])
    (hfast : gw.fast_info_lastPrice = Except.ok p)
    (hhist : ∀ per itv, gw.history per itv = Except.ok bars) :
    ∃ label tr lay,
      update_stock_price gw ticker dm pc ic = Except.ok (label, ⟨[tr], some lay⟩) ∧
      tr.increasing_line_color = (if dm then "lime" else "green") ∧
      tr.decreasing_line_color = "red" ∧
      lay.plot_bgcolor = (if dm then dark_theme else light_theme).graph_bg ∧
      lay.paper_bgcolor = (if dm then dark_theme else light_theme).graph_bg ∧
      lay.font_color = (if dm then dark_theme else light_theme).graph_text ∧
      lay.xaxis_title = "Time" ∧
      lay.yaxis_title = "Price ($)" ∧
      lay.xaxis_gridcolor = "gray" ∧
      lay.yaxis_gridcolor = "gray" ∧
      lay.title = ticker ++ " Stock Price" := by
  obtain ⟨per, itv, _, _, heq⟩ :=
    update_stock_price_eq_try gw ticker dm pc ic hp hi
  have hemp : bars.isEmpty = false := by
    cases bars with
    | nil => exact absurd rfl hbars
    | cons b bs => rfl
  refine ⟨"Current Price: $" ++ format2 p,
    ⟨bars.map OhlcBar.timestamp, bars.map OhlcBar.Open, bars.map OhlcBar.High,
      bars.map OhlcBar.Low, bars.map OhlcBar.Close,
      if dm then "lime" else "green", "red"⟩,
    ⟨ticker ++ " Stock Price", "Time", "Price ($)",
      (if dm then dark_theme else light_theme).graph_bg,
      (if dm then dark_theme else light_theme).graph_bg,
      (if dm then dark_theme else light_theme).graph_text, "gray", "gray"⟩,
    ?_, rfl, rfl, rfl, rfl, rfl, rfl, rfl, rfl, rfl, rfl⟩
  rw [heq]
  unfold try_fetch_and_render
  rw [hfast, hhist per itv]
  simp [hemp, make_candlestick_figure]

theorem c6_witness :
    ∃ label tr lay,
      update_stock_price gwSample "AAPL" true [0, 0, 0, 0, 0] [0, 0, 0, 0, 0] =
        Except.ok (label, ⟨[tr], some lay⟩) ∧
      tr.increasing_line_color = (if true then "lime" else "green") ∧
      tr.decreasing_line_color = "red" ∧
      lay.plot_bgcolor = (if true then dark_theme else light_theme).graph_bg ∧
      lay.paper_bgcolor = (if true then dark_theme else light_theme).graph_bg ∧
      lay.font_color = (if true then dark_theme else light_theme).graph_text ∧
      lay.xaxis_title = "Time" ∧
      lay.yaxis_title = "Price ($)" ∧
      lay.xaxis_gridcolor = "gray" ∧
      lay.yaxis_gridcolor = "gray" ∧
      lay.title = "AAPL" ++ " Stock Price" :=
  c6_chart_spec gwSample "AAPL" true [0, 0, 0, 0, 0] [0, 0, 0, 0, 0] rfl rfl
    ((1234 : Rat) / 10) [sampleBar] (by simp) rfl (fun _ _ => rfl)

/-- Claim C9: the `fast_info` last-price lookup precedes the emptiness
check of the bar history — if the lookup raises, the result is the
`"Error: …"` branch even when every history the gateway could return is
empty; and the `"Invalid Ticker: …"` outcome occurs only when the lookup
succeeded and the bars fetched at the resolved period and interval are
empty. -/
theorem c9_lastprice_lookup_precedes_empty_check (gw : Gateway)
    (ticker : String) (dm : Bool) (pc ic : List Nat)
    (hp : pc.length = 5) (hi : ic.length = 5) :
    (∀ msg, gw.fast_info_lastPrice = Except.error msg →
      (∀ per itv, gw.history per itv = Except.ok []) →
      update_stock_price gw ticker dm pc ic =
        Except.ok ("Error: " ++ msg, emptyFigure)) ∧
    (∀ fig, update_stock_price gw ticker dm pc ic =
        Except.ok ("Invalid Ticker: " ++ ticker, fig) →
      ∃ p, gw.fast_info_lastPrice = Except.ok p ∧
        ∀ per itv bars, resolve_option period_options pc = Except.ok per →
          resolve_option interval_options ic = Except.ok itv →
          gw.history per itv = Except.ok bars → bars = []) := by
  obtain ⟨per, itv, hper, hitv, heq⟩ :=
    update_stock_price_eq_try gw ticker dm pc ic hp hi
  constructor
  · intro msg hfast hhist
    rw [heq]
    unfold try_fetch_and_render
    rw [hfast]
  · intro fig hout
    rw [heq] at hout
    have hpair : try_fetch_and_render gw ticker dm per itv =
        ("Invalid Ticker: " ++ ticker, fig) := Except.ok.inj hout
    cases hfi : gw.fast_info_lastPrice with
    | error e =>
      exfalso
      unfold try_fetch_and_render at hpair
      rw [hfi] at hpair
      exact error_label_ne_invalid e ticker (congrArg Prod.fst hpair)
    | ok p =>
      refine ⟨p, rfl, ?_⟩
      intro per2 itv2 bars hper2 hitv2 hhist2
      have hep : per2 = per := by
        rw [hper] at hper2
        exact (Except.ok.inj hper2).symm
      have hei : itv2 = itv := by
        rw [hitv] at hitv2
        exact (Except.ok.inj hitv2).symm
      subst hep hei
      unfold try_fetch_and_render at hpair
      rw [hfi, hhist2] at hpair
      by_cases hb : bars.isEmpty
      · exact List.isEmpty_iff.mp hb
      · have hb2 : bars.isEmpty = false := by simpa using hb
        simp only [hb2, Bool.false_eq_true, if_false, Prod.mk.injEq] at hpair
        exact absurd hpair.1 (price_label_ne_invalid (format2 p) ticker)

/-- A gateway whose `fast_info` lookup raises while every history call
succeeds with an empty bar series. -/
def gwFastErrEmptyHist : Gateway :=
  ⟨Except.error "boom", fun _ _ => Except.ok []⟩

theorem c9_witness :
    update_stock_price gwFastErrEmptyHist "AAPL" false [0, 0, 0, 0, 0] [0, 0, 0, 0, 0] =
      Except.ok ("Error: " ++ "boom", emptyFigure) :=
  (c9_lastprice_lookup_precedes_empty_check gwFastErrEmptyHist "AAPL" false
    [0, 0, 0, 0, 0] [0, 0, 0, 0, 0] rfl rfl).1 "boom" rfl (fun _ _ => rfl)

end TradeDashboard
